import Mathlib

/-
Verification development for the sales-dashboard pipeline
(src/AzharSaeeddata.py).  The script decodes a binary workbook sheet into a
table, coerces the DT and USDAmt columns to numbers, derives Date/Year/Month
fields, and applies set-membership filters to produce a dashboard view and a
quick view, over which KPIs are computed.

The embedding below mirrors the module top-level of the script:
  - load_xlsb             (lines 13-27)
  - the cleaning pipeline (lines 51-73): DT/USDAmt coercion, the missing-DT
    check, date derivation, dropna, Year/Month derivation
  - option lists and filtered views (lines 81-163)
  - KPI aggregates and the overview subheader (lines 169-183)

Python exceptions are modelled explicitly: an uncaught exception
(KeyError/ValueError) is a distinct outcome from a handled, user-visible
st.error message followed by st.stop.
-/

set_option maxRecDepth 4000

/-- Raw cell value as it sits in a decoded column, at the granularity that
pd.to_numeric distinguishes: a value that coerces to a number, a value that
fails numeric coercion (to_numeric with errors coerce turns it into NaN),
or an empty/NaN cell. -/
inductive Cell where
  | num (q : ℚ)
  | nonNumeric
  | null
deriving DecidableEq, Repr

/-- Result of pd.to_numeric on a single cell: numeric values survive,
everything else becomes missing. -/
def coerceNumeric : Cell → Option ℚ
  | .num q => some q
  | .nonNumeric => none
  | .null => none

/-- The cell stored back into the column by the to_numeric assignment:
a number stays a number, a failed coercion is stored as NaN. -/
def numericCell (c : Cell) : Cell :=
  match coerceNumeric c with
  | some q => .num q
  | none => .null

/-- Calendar date (proleptic Gregorian), the value carried by the derived
Date column. -/
structure Date where
  year : Int
  month : Nat
  day : Nat
deriving DecidableEq, Repr

/-- Civil date from a count of days since 1970-01-01 (the classic
era/day-of-era conversion used by date libraries); models how a pandas
timestamp at a whole-day boundary reads back as a calendar date. -/
def civilFromDays (z : Int) : Date :=
  let zShift := z + 719468
  let era := Int.fdiv zShift 146097
  let doe := (Int.fmod zShift 146097).toNat
  let yoe := (doe - doe / 1460 + doe / 36524 - doe / 146096) / 365
  let y : Int := (yoe : Int) + era * 400
  let doy := doe - (365 * yoe + yoe / 4 - yoe / 100)
  let mp := (5 * doy + 2) / 153
  let d := doy - (153 * mp + 2) / 5 + 1
  let m := if mp < 10 then mp + 3 else mp - 9
  { year := if m ≤ 2 then y + 1 else y, month := m, day := d }

/-- Fixed month ordering assigned to the Month categorical column
(month_order, lines 69-72). -/
def month_order : List String :=
  ["January", "February", "March", "April", "May", "June",
   "July", "August", "September", "October", "November", "December"]

/-- Full English month name of a month number, as produced by
dt.month_name(); month numbers outside 1..12 never arise from a valid date. -/
def monthName (m : Nat) : String :=
  match m with
  | 1 => "January"
  | 2 => "February"
  | 3 => "March"
  | 4 => "April"
  | 5 => "May"
  | 6 => "June"
  | 7 => "July"
  | 8 => "August"
  | 9 => "September"
  | 10 => "October"
  | 11 => "November"
  | _ => "December"

/-- Day offset of the spreadsheet epoch 1899-12-30 relative to 1970-01-01. -/
def excelEpochDays : Int := -25569

/-- Nanoseconds per day, the unit pandas timestamps are stored in. -/
def nsPerDay : Int := 86400000000000

/-- Whether the DT serial lands inside the representable pandas timestamp
range: the nanosecond position (excelEpochDays + q) * nsPerDay must fit in a
signed 64-bit count, whose minimum value is reserved as the NaT sentinel;
out-of-range serials coerce to NaT.  The rational inequality is stated
cross-multiplied by the positive denominator of q so that it is pure integer
arithmetic. -/
def serialInRange (q : ℚ) : Bool :=
  decide ((-9223372036854775808 : Int) * (q.den : Int) <
            (excelEpochDays * (q.den : Int) + q.num) * nsPerDay ∧
          (excelEpochDays * (q.den : Int) + q.num) * nsPerDay ≤
            9223372036854775807 * (q.den : Int))

/-- Date derived from a coerced DT value by pd.to_datetime with origin
1899-12-30, unit D and errors coerce (line 56): a missing DT stays missing,
an out-of-range serial becomes NaT, and otherwise the timestamp at that
day offset reads back as the civil date at the floor of the offset. -/
def dateFromDT : Option ℚ → Option Date
  | none => none
  | some q =>
      if serialInRange q then some (civilFromDays (excelEpochDays + Rat.floor q))
      else none

/-- Row of the decoded table before cleaning.  Named columns carry their raw
cell values; BranchName, CustomerName and TBM hold an optional string (none
is a null cell).  The tbm field is only meaningful when the frame has a TBM
column. -/
structure RawRow where
  branchName : Option String
  customerName : Option String
  tbm : Option String
  dt : Cell
  usdAmt : Cell
deriving DecidableEq, Repr

/-- Decoded table handed to the cleaning pipeline, with explicit presence
flags for the columns the script accesses by name (a pandas column access on
an absent column raises KeyError). -/
structure RawFrame where
  hasDT : Bool
  hasUSDAmt : Bool
  hasTBM : Bool
  rows : List RawRow
deriving DecidableEq, Repr

/-- Row of the cleaned table: dropna on Date and USDAmt has succeeded, so
both are present, and Year and Month are derived from Date. -/
structure Row where
  branchName : Option String
  customerName : Option String
  tbm : Option String
  usdAmt : ℚ
  date : Date
  year : Int
  month : String
deriving DecidableEq, Repr

/-- Cleaned table: the TBM presence flag survives cleaning, the rows are the
cleaned rows. -/
structure Frame where
  hasTBM : Bool
  rows : List Row
deriving DecidableEq, Repr

/-- Outcome of a pipeline step: keyError and valueError model uncaught
Python exceptions; stError models a handled st.error message followed by
st.stop (a user-visible error and halt). -/
inductive PipelineError where
  | keyError (column : String)
  | stError (message : String)
  | valueError (message : String)
deriving DecidableEq, Repr

instance {ε α : Type} [DecidableEq ε] [DecidableEq α] : DecidableEq (Except ε α) :=
  fun a b =>
    match a, b with
    | .ok x, .ok y =>
        if h : x = y then .isTrue (by rw [h])
        else .isFalse (fun hc => h (Except.ok.inj hc))
    | .error x, .error y =>
        if h : x = y then .isTrue (by rw [h])
        else .isFalse (fun hc => h (Except.error.inj hc))
    | .ok _, .error _ => .isFalse (fun hc => Except.noConfusion hc)
    | .error _, .ok _ => .isFalse (fun hc => Except.noConfusion hc)

/-- Line 51: the assignment reads df of DT on the right-hand side first, so
a missing DT column raises KeyError; otherwise every DT cell is replaced by
its numeric coercion. -/
def coerceDTColumn (f : RawFrame) : Except PipelineError RawFrame :=
  if f.hasDT then
    .ok { f with rows := f.rows.map (fun r => { r with dt := numericCell r.dt }) }
  else
    .error (.keyError "DT")

/-- Line 52: same for the USDAmt column. -/
def coerceUSDColumn (f : RawFrame) : Except PipelineError RawFrame :=
  if f.hasUSDAmt then
    .ok { f with rows := f.rows.map (fun r => { r with usdAmt := numericCell r.usdAmt }) }
  else
    .error (.keyError "USDAmt")

/-- Lines 56, 62, 65-66 and 73 applied to one row: derive Date from the
coerced DT, keep the row only when Date and USDAmt are both non-missing, and
derive Year and Month from the date. -/
def cleanRow (r : RawRow) : Option Row :=
  match dateFromDT (coerceNumeric r.dt), coerceNumeric r.usdAmt with
  | some d, some amt =>
      some { branchName := r.branchName, customerName := r.customerName,
             tbm := r.tbm, usdAmt := amt, date := d, year := d.year,
             month := monthName d.month }
  | _, _ => none

/-- Lines 51-73 of the script: coerce DT (KeyError when the column is
absent), coerce USDAmt, then the membership check of line 55 — which is
always true at this point because the line-51 assignment created the column —
and finally date derivation, dropna and Year/Month derivation.  The else
branch with the user-visible missing-DT error (lines 58-59) is kept exactly
where the source has it. -/
def cleanPipeline (f : RawFrame) : Except PipelineError Frame :=
  match coerceDTColumn f with
  | .error e => .error e
  | .ok f1 =>
    match coerceUSDColumn f1 with
    | .error e => .error e
    | .ok f2 =>
      if f2.hasDT then
        .ok { hasTBM := f2.hasTBM, rows := f2.rows.filterMap cleanRow }
      else
        .error (.stError "DT column not found in XLSB sheet.")

/-- Membership test of an optional cell value against a selection list:
pandas isin is false on a null cell, and otherwise tests list membership. -/
def optMem (o : Option String) (l : List String) : Bool :=
  match o with
  | some s => decide (s ∈ l)
  | none => false

/-- Lexicographic comparison of two strings by character codepoint, the
ordering the Python sorted builtin applies to strings. -/
def charListLe : List Char → List Char → Bool
  | [], _ => true
  | _ :: _, [] => false
  | a :: as, b :: bs =>
    if a.toNat < b.toNat then true
    else if b.toNat < a.toNat then false
    else charListLe as bs

/-- Codepoint-lexicographic order on strings. -/
def strLe (a b : String) : Bool :=
  charListLe a.data b.data

/-- Insertion of a string into a sorted list, the helper of sortStrings. -/
def insertSorted (s : String) : List String → List String
  | [] => [s]
  | t :: ts => if strLe s t then s :: t :: ts else t :: insertSorted s ts

/-- Ascending sort of a list of strings, modelling the Python sorted
builtin. -/
def sortStrings : List String → List String
  | [] => []
  | s :: ss => insertSorted s (sortStrings ss)

/-- Model of sorted(series.dropna().unique()) applied to the non-null values
of a column: first-occurrence deduplication followed by an ascending sort. -/
def sortedUnique (l : List String) : List String :=
  sortStrings l.dedup

/-- Line 81: branch options are the sorted unique non-null BranchName values
of the full cleaned table. -/
def branch_options (f : Frame) : List String :=
  sortedUnique (f.rows.filterMap (fun r => r.branchName))

/-- Line 88: the branch-filtered table, rows whose BranchName is a member of
the selected branches. -/
def df_branch_filtered (f : Frame) (selected_branch : List String) : List Row :=
  f.rows.filter (fun r => optMem r.branchName selected_branch)

/-- Line 99: client options for the dashboard are the sorted unique non-null
CustomerName values of the branch-filtered table. -/
def client_options (f : Frame) (selected_branch : List String) : List String :=
  sortedUnique ((df_branch_filtered f selected_branch).filterMap
    (fun r => r.customerName))

/-- Line 109: TBM options for the dashboard are the sorted unique non-null
TBM values of the full cleaned table (the branch line-108 guard means this
list is only computed when the TBM column exists). -/
def tbm_options (f : Frame) : List String :=
  sortedUnique (f.rows.filterMap (fun r => r.tbm))

/-- Line 117: the fallback value bound to selected_tbm when the TBM column
is absent, the unique values of df.get on a missing key, an empty series. -/
def selected_tbm_fallback : List String := []

/-- Lines 120-124: the dashboard view.  The boolean mask conjoins the
CustomerName, Month and TBM membership tests over the branch-filtered table;
evaluating df_branch_filtered at the TBM key raises KeyError when the table
has no TBM column, because the access is not guarded. -/
def filtered_df_dashboard (f : Frame)
    (selected_branch selected_month selected_client selected_tbm : List String) :
    Except PipelineError (List Row) :=
  if f.hasTBM then
    .ok ((df_branch_filtered f selected_branch).filter (fun r =>
      optMem r.customerName selected_client &&
      decide (r.month ∈ selected_month) &&
      optMem r.tbm selected_tbm))
  else
    .error (.keyError "TBM")

/-- Lines 139-163: the quick view.  When the TBM column is absent the quick
TBM selector is fixed to the All TBMs sentinel (line 146), so the TBM
equality filter is skipped; then the single-client and single-TBM overrides
apply, followed by the same branch and month membership tests as the
dashboard. -/
def filtered_df_quick (f : Frame) (selected_quick_client uiQuickTbm : String)
    (selected_branch selected_month : List String) : List Row :=
  let selected_quick_tbm := if f.hasTBM then uiQuickTbm else "All TBMs"
  let q1 := if selected_quick_client ≠ "All Clients" then
      f.rows.filter (fun r => r.customerName == some selected_quick_client)
    else f.rows
  let q2 := if selected_quick_tbm ≠ "All TBMs" then
      q1.filter (fun r => r.tbm == some selected_quick_tbm)
    else q1
  q2.filter (fun r =>
    optMem r.branchName selected_branch && decide (r.month ∈ selected_month))

/-- Line 176: total amount over the quick view. -/
def total_sales (rows : List Row) : ℚ :=
  (rows.map (fun r => r.usdAmt)).sum

/-- Line 177: transaction count over the quick view. -/
def total_transactions (rows : List Row) : Nat :=
  rows.length

/-- Line 178: the average-sale KPI, total over count when the count is
positive and 0 otherwise. -/
def avg_sale (rows : List Row) : ℚ :=
  if 0 < total_transactions rows then
    total_sales rows / (total_transactions rows : ℚ)
  else 0

/-- Maximum of a series of integers, none on an empty series (a pandas max
of an empty numeric series is NaN). -/
def seriesMax : List Int → Option Int
  | [] => none
  | x :: xs =>
    match seriesMax xs with
    | none => some x
    | some m => some (max x m)

/-- Line 169: int applied to the maximum of the Year column; on an empty
cleaned table the maximum is NaN and the int conversion raises ValueError. -/
def latest_year (f : Frame) : Except PipelineError Int :=
  match seriesMax (f.rows.map (fun r => r.year)) with
  | some y => .ok y
  | none => .error (.valueError "cannot convert float NaN to integer")

/-- Lines 169-170: the overview block first computes latest_year (which can
raise) and then renders the subheader, whose f-string contains no
placeholder and is the constant text Data Overview for 2025. -/
def overviewSubheader (f : Frame) : Except PipelineError String :=
  match latest_year f with
  | .ok _ => .ok "Data Overview for 2025"
  | .error e => .error e

/-- Raw table produced by load_xlsb: the header row promoted to column
names, and the remaining rows as data. -/
structure RawTable where
  header : List Cell
  dataRows : List (List Cell)
deriving DecidableEq, Repr

/-- The empty DataFrame returned by the except branch of load_xlsb. -/
def emptyRawTable : RawTable := ⟨[], []⟩

/-- Body of the try block of load_xlsb (lines 16-24): the input argument
models the outcome of opening the workbook, finding the DATA_BK sheet and
iterating its rows (an error value stands for any exception raised by those
steps, carrying its message); then the first row is promoted to the header,
which on a sheet with no rows raises the out-of-bounds error of iloc. -/
def loadBody (input : Except String (List (List Cell))) : Except String RawTable :=
  match input with
  | .error e => .error e
  | .ok [] => .error "single positional indexer is out-of-bounds"
  | .ok (header :: dataRows) => .ok ⟨header, dataRows⟩

/-- Lines 13-27: load_xlsb wraps the whole decode in a try/except that
catches every exception, surfaces the message through st.error, and returns
an empty DataFrame; the second component is the surfaced error message. -/
def load_xlsb (input : Except String (List (List Cell))) :
    RawTable × Option String :=
  match loadBody input with
  | .ok t => (t, none)
  | .error e => (emptyRawTable, some ("Error loading XLSB file: " ++ e))

/-- Reference date used by the concrete example tables, the epoch itself. -/
def exDate : Date := ⟨1899, 12, 30⟩

/-- Decoded table whose header lacks a DT column. -/
def rawNoDT : RawFrame :=
  ⟨false, true, true, [⟨some "A", some "X", some "T", Cell.num 1, Cell.num 100⟩]⟩

/-- Cleaned row of a table that has no TBM column. -/
def rowNoTBM : Row := ⟨some "A", some "X", none, 100, exDate, 1899, "December"⟩

/-- Cleaned table without a TBM column. -/
def frameNoTBM : Frame := ⟨false, [rowNoTBM]⟩

/-- Row in branch A with TBM value T1. -/
def rowT1 : Row := ⟨some "A", some "X", some "T1", 100, exDate, 1899, "December"⟩

/-- Row in branch B with TBM value T2. -/
def rowT2 : Row := ⟨some "B", some "Y", some "T2", 200, exDate, 1899, "December"⟩

/-- Cleaned two-branch table whose TBM values differ per branch. -/
def frameC3 : Frame := ⟨true, [rowT1, rowT2]⟩

/-- Decoded table with one row whose TBM cell is null. -/
def raw4 : RawFrame :=
  ⟨true, true, true, [⟨some "A", some "X", none, Cell.num 0, Cell.num 100⟩]⟩

/-- The cleaned form of the row of raw4. -/
def row4 : Row := ⟨some "A", some "X", none, 100, exDate, 1899, "December"⟩

/-- The cleaned table produced from raw4. -/
def frame4 : Frame := ⟨true, [row4]⟩

/-- Decoded table with one fully populated row. -/
def raw5 : RawFrame :=
  ⟨true, true, true, [⟨some "A", some "X", some "T", Cell.num 0, Cell.num 100⟩]⟩

/-- The cleaned form of the row of raw5. -/
def row5 : Row := ⟨some "A", some "X", some "T", 100, exDate, 1899, "December"⟩

/-- The cleaned table produced from raw5. -/
def frame5 : Frame := ⟨true, [row5]⟩

/-- Decoded table whose single row has a non-numeric DT cell, so cleaning
drops every row. -/
def rawDropAll : RawFrame :=
  ⟨true, true, true, [⟨some "A", some "X", some "T", Cell.nonNumeric, Cell.num 100⟩]⟩

/-- Every month name produced by monthName is one of the twelve members of
month_order. -/
theorem monthName_mem (m : Nat) : monthName m ∈ month_order := by
  unfold monthName
  split <;> decide

/-- Membership in an insertion is membership in the inserted element or the
list. -/
theorem mem_insertSorted (s a : String) (l : List String) :
    a ∈ insertSorted s l ↔ a = s ∨ a ∈ l := by
  induction l with
  | nil => simp [insertSorted]
  | cons t ts ih =>
    unfold insertSorted
    split
    · simp [List.mem_cons]
    · simp only [List.mem_cons, ih]
      tauto

/-- Sorting does not change membership. -/
theorem mem_sortStrings (a : String) (l : List String) :
    a ∈ sortStrings l ↔ a ∈ l := by
  induction l with
  | nil => simp [sortStrings]
  | cons s ss ih => simp [sortStrings, mem_insertSorted, ih]

/-- Membership in the sorted deduplicated option list is membership in the
underlying value list. -/
theorem mem_sortedUnique (a : String) (l : List String) :
    a ∈ sortedUnique l ↔ a ∈ l := by
  simp [sortedUnique, mem_sortStrings, List.mem_dedup]

/-- A null cell is never a member of a selection. -/
theorem optMem_nil (o : Option String) : optMem o [] = false := by
  cases o <;> simp [optMem]

/-- A filter whose predicate is everywhere false yields the empty list. -/
theorem filter_false_of (l : List Row) (p : Row → Bool)
    (h : ∀ r, p r = false) : l.filter p = [] := by
  induction l with
  | nil => rfl
  | cons a t ih => simp [List.filter_cons, h a, ih]

/-- A row kept by cleanRow carries one of the twelve month names. -/
theorem cleanRow_month (rr : RawRow) (r : Row) (h : cleanRow rr = some r) :
    r.month ∈ month_order := by
  unfold cleanRow at h
  split at h
  · cases h
    exact monthName_mem _
  · cases h

/-- The rows of a successfully cleaned table all come from cleanRow. -/
theorem cleanPipeline_rows (raw : RawFrame) (f : Frame)
    (h : cleanPipeline raw = .ok f) :
    ∃ l : List RawRow, f.rows = l.filterMap cleanRow := by
  obtain ⟨hdt, hus, htbm, rows⟩ := raw
  cases hdt <;> cases hus <;>
    simp [cleanPipeline, coerceDTColumn, coerceUSDColumn] at h
  subst h
  refine ⟨(rows.map (fun r => { r with dt := numericCell r.dt })).map
    (fun r => { r with usdAmt := numericCell r.usdAmt }), ?_⟩
  simp [List.filterMap_map, Function.comp_def]

/-- Every row of a successfully cleaned table has a month from month_order. -/
theorem month_mem_of_clean (raw : RawFrame) (f : Frame)
    (h : cleanPipeline raw = .ok f) (r : Row) (hr : r ∈ f.rows) :
    r.month ∈ month_order := by
  obtain ⟨l, hl⟩ := cleanPipeline_rows raw f h
  rw [hl] at hr
  obtain ⟨rr, _, hrr⟩ := List.mem_filterMap.mp hr
  exact cleanRow_month rr r hrr

/-- Membership survives an optional filter applied to a list. -/
theorem mem_ite_filter {c : Prop} [Decidable c] {l : List Row} {p : Row → Bool}
    {r : Row} (h : r ∈ (if c then l.filter p else l)) : r ∈ l := by
  split at h
  · exact List.mem_of_mem_filter h
  · exact h

/-- C1: the claim says a decoded table without a DT column makes the
pipeline fail with a user-visible error and halt, with no uncaught
exception.  Evaluating the pipeline at such a table shows the line-51
column access raises an uncaught KeyError before the line-55 membership
check can run, so the outcome is the KeyError, not the handled st.error of
lines 58-59. -/
theorem c1_missing_dt_eval :
    cleanPipeline rawNoDT = .error (.keyError "DT")
    ∧ cleanPipeline rawNoDT ≠
        .error (.stError "DT column not found in XLSB sheet.") := by
  decide

/-- C2: the claim says a table without a TBM column makes the dashboard
view bypass the TBM test and not fail.  Evaluating the dashboard mask at
such a table shows the unguarded TBM column access of line 123 raises
KeyError; the quick view, by contrast, does bypass TBM and succeeds. -/
theorem c2_missing_tbm_eval :
    filtered_df_dashboard frameNoTBM ["A"] month_order ["X"] selected_tbm_fallback
      = .error (.keyError "TBM")
    ∧ filtered_df_quick frameNoTBM "All Clients" "All TBMs" ["A"] month_order
      = [rowNoTBM] := by
  decide

/-- C3 counterexample: in a table where branch B carries TBM value T2 and
only branch A is selected, T2 is still offered in the TBM option list even
though no branch-filtered row carries it, so the TBM options are not drawn
from branch-filtered data. -/
theorem c3_counterexample :
    "T2" ∈ tbm_options frameC3
    ∧ ¬ ∃ r ∈ df_branch_filtered frameC3 ["A"], r.tbm = some "T2" := by
  decide

/-- C3 amended: the Client option list contains exactly the non-null
CustomerName values of the branch-filtered rows, while the TBM option list
contains exactly the non-null TBM values of the full table. -/
theorem c3_option_lists (f : Frame) (selB : List String) (x : String) :
    (x ∈ client_options f selB ↔
      ∃ r ∈ df_branch_filtered f selB, r.customerName = some x)
    ∧ (x ∈ tbm_options f ↔ ∃ r ∈ f.rows, r.tbm = some x) := by
  constructor
  · rw [client_options, mem_sortedUnique, List.mem_filterMap]
  · rw [tbm_options, mem_sortedUnique, List.mem_filterMap]

/-- C4 counterexample: a cleaned table whose single branch-filtered row has
a null TBM cell; under select-all selections the dashboard view is empty
while the branch-filtered table is not, so the two differ. -/
theorem c4_counterexample :
    cleanPipeline raw4 = .ok frame4
    ∧ frame4.hasTBM = true
    ∧ filtered_df_dashboard frame4 (branch_options frame4) month_order
        (client_options frame4 (branch_options frame4)) (tbm_options frame4)
      ≠ .ok (df_branch_filtered frame4 (branch_options frame4)) := by
  decide

/-- C4 amended: for every cleaned table with a TBM column, under select-all
selections the dashboard view equals the branch-filtered table restricted to
rows whose CustomerName and TBM are non-null; rows with a null value in
either column are excluded because the option lists drop nulls. -/
theorem c4_select_all_amended (raw : RawFrame) (f : Frame)
    (hclean : cleanPipeline raw = .ok f) (hT : f.hasTBM = true) :
    filtered_df_dashboard f (branch_options f) month_order
        (client_options f (branch_options f)) (tbm_options f)
      = .ok ((df_branch_filtered f (branch_options f)).filter
          (fun r => r.customerName.isSome && r.tbm.isSome)) := by
  unfold filtered_df_dashboard
  rw [if_pos hT]
  refine congrArg Except.ok (List.filter_congr ?_)
  intro r hr
  have hrow : r ∈ f.rows := List.mem_of_mem_filter hr
  have hmonth : r.month ∈ month_order := month_mem_of_clean raw f hclean r hrow
  cases hc : r.customerName with
  | none => simp [optMem, hc]
  | some c =>
    have hcopt : c ∈ client_options f (branch_options f) := by
      rw [client_options, mem_sortedUnique]
      exact List.mem_filterMap.mpr ⟨r, hr, by rw [hc]⟩
    cases ht : r.tbm with
    | none => simp [optMem, hc, ht]
    | some t =>
      have htopt : t ∈ tbm_options f := by
        rw [tbm_options, mem_sortedUnique]
        exact List.mem_filterMap.mpr ⟨r, hrow, by rw [ht]⟩
      simp [optMem, hc, ht, hmonth, hcopt, htopt]

/-- C4 witness: a concrete cleaned table with a fully populated row, at
which the amended select-all equation evaluates. -/
theorem c4_witness :
    filtered_df_dashboard frame5 (branch_options frame5) month_order
        (client_options frame5 (branch_options frame5)) (tbm_options frame5)
      = .ok ((df_branch_filtered frame5 (branch_options frame5)).filter
          (fun r => r.customerName.isSome && r.tbm.isSome)) :=
  c4_select_all_amended raw5 frame5 (by decide) rfl

/-- C5: every row of the dashboard view and every row of the quick view is
a row of the cleaned table, for every table and every selection. -/
theorem c5_views_subset (f : Frame) (selB selM selC selT : List String)
    (qc qt : String) (v : List Row) (r : Row) :
    (filtered_df_dashboard f selB selM selC selT = .ok v → r ∈ v → r ∈ f.rows)
    ∧ (r ∈ filtered_df_quick f qc qt selB selM → r ∈ f.rows) := by
  constructor
  · intro h hr
    unfold filtered_df_dashboard at h
    split at h
    · cases h
      exact List.mem_of_mem_filter (List.mem_of_mem_filter hr)
    · cases h
  · intro h
    simp only [filtered_df_quick] at h
    exact mem_ite_filter (mem_ite_filter (List.mem_of_mem_filter h))

/-- C5 witness: concrete table and selections at which the dashboard
subset implication of the claim evaluates. -/
theorem c5_witness : row5 ∈ frame5.rows :=
  (c5_views_subset frame5 ["A"] ["December"] ["X"] ["T"] "All Clients"
    "All TBMs" [row5] row5).1 (by decide) (by decide)

/-- C6: an empty selection on any multi-select dimension empties the
corresponding view: an empty branch or month selection empties both views,
and an empty client or TBM selection empties the dashboard view (stated for
tables with a TBM column, where the dashboard view computes at all). -/
theorem c6_empty_selection (f : Frame) (selB selM selC selT : List String)
    (qc qt : String) :
    (selB = [] → filtered_df_quick f qc qt selB selM = [])
    ∧ (selM = [] → filtered_df_quick f qc qt selB selM = [])
    ∧ (f.hasTBM = true → selB = [] →
        filtered_df_dashboard f selB selM selC selT = .ok [])
    ∧ (f.hasTBM = true → selM = [] →
        filtered_df_dashboard f selB selM selC selT = .ok [])
    ∧ (f.hasTBM = true → selC = [] →
        filtered_df_dashboard f selB selM selC selT = .ok [])
    ∧ (f.hasTBM = true → selT = [] →
        filtered_df_dashboard f selB selM selC selT = .ok []) := by
  refine ⟨?_, ?_, ?_, ?_, ?_, ?_⟩
  · intro hB
    subst hB
    simp only [filtered_df_quick]
    exact filter_false_of _ _ (fun r => by simp [optMem_nil])
  · intro hM
    subst hM
    simp only [filtered_df_quick]
    exact filter_false_of _ _ (fun r => by simp [Bool.and_eq_false_iff])
  · intro hT hB
    subst hB
    unfold filtered_df_dashboard
    rw [if_pos hT, df_branch_filtered, filter_false_of _ _ (fun r => optMem_nil _)]
    rfl
  · intro hT hM
    subst hM
    unfold filtered_df_dashboard
    rw [if_pos hT]
    rw [filter_false_of _ _ (fun r => by simp)]
  · intro hT hC
    subst hC
    unfold filtered_df_dashboard
    rw [if_pos hT]
    rw [filter_false_of _ _ (fun r => by simp [optMem_nil])]
  · intro hT hTsel
    subst hTsel
    unfold filtered_df_dashboard
    rw [if_pos hT]
    rw [filter_false_of _ _ (fun r => by simp [optMem_nil])]

/-- C6 witness: a concrete table at which empty branch and empty client
selections evaluate to empty quick and dashboard views. -/
theorem c6_witness :
    filtered_df_quick frame5 "All Clients" "All TBMs" [] month_order = []
    ∧ filtered_df_dashboard frame5 [] month_order [] ["T"] = .ok [] := by
  have h := c6_empty_selection frame5 [] month_order [] ["T"] "All Clients" "All TBMs"
  exact ⟨h.1 rfl, h.2.2.1 rfl rfl⟩

/-- C7: date derivation maps DT serial 0 to 1899-12-30 and serial 1 to
1899-12-31, a missing DT yields a missing date, and any serial outside the
representable timestamp range yields a missing date rather than an error. -/
theorem c7_date_derivation :
    dateFromDT (some 0) = some ⟨1899, 12, 30⟩
    ∧ dateFromDT (some 1) = some ⟨1899, 12, 31⟩
    ∧ dateFromDT none = none
    ∧ ∀ q : ℚ, serialInRange q = false → dateFromDT (some q) = none := by
  refine ⟨by decide, by decide, rfl, ?_⟩
  intro q hq
  simp [dateFromDT, hq]

/-- C7 witness: a concrete out-of-range serial at which the invalid-offset
clause of the date-derivation theorem evaluates. -/
theorem c7_witness : dateFromDT (some (100000000000000 : ℚ)) = none :=
  c7_date_derivation.2.2.2 100000000000000 (by decide)

/-- C8: whenever any step of decoding raises (opening the workbook, finding
the DATA_BK sheet, iterating rows, or promoting the header), load_xlsb
returns the empty table together with a surfaced user-visible message, and
being a total function it lets no exception escape. -/
theorem c8_decode_error_handling (input : Except String (List (List Cell)))
    (e : String) (h : loadBody input = .error e) :
    load_xlsb input = (emptyRawTable, some ("Error loading XLSB file: " ++ e)) := by
  unfold load_xlsb
  rw [h]

/-- C8 witness: a concrete failed decode at which the error-handling
theorem evaluates. -/
theorem c8_witness :
    load_xlsb (.error "corrupt stream") =
      (emptyRawTable, some ("Error loading XLSB file: " ++ "corrupt stream")) :=
  c8_decode_error_handling (.error "corrupt stream") "corrupt stream" rfl

/-- C9: the average-sale KPI divides total amount by transaction count only
when the count is positive and reports 0 when the count is 0. -/
theorem c9_avg_sale_guard :
    (∀ rows : List Row, 0 < total_transactions rows →
        avg_sale rows = total_sales rows / (total_transactions rows : ℚ))
    ∧ (∀ rows : List Row, total_transactions rows = 0 → avg_sale rows = 0) := by
  constructor
  · intro rows h
    unfold avg_sale
    rw [if_pos h]
  · intro rows h
    unfold avg_sale
    rw [if_neg (by omega)]

/-- C9 witness: the zero-count and positive-count clauses of the
average-sale theorem evaluated at concrete views. -/
theorem c9_witness :
    avg_sale ([] : List Row) = 0
    ∧ avg_sale [row5] = total_sales [row5] / (total_transactions [row5] : ℚ) :=
  ⟨c9_avg_sale_guard.2 [] rfl, c9_avg_sale_guard.1 [row5] (by decide)⟩

/-- C10 counterexample: an uploaded table whose rows are all dropped by
cleaning is decoded and cleaned successfully, yet the overview step fails
before the heading renders, because int applied to the maximum of an empty
Year column raises ValueError; so the heading is not rendered for every
uploaded table. -/
theorem c10_counterexample :
    cleanPipeline rawDropAll = .ok ⟨true, []⟩
    ∧ overviewSubheader ⟨true, []⟩ ≠ .ok "Data Overview for 2025" := by
  decide

/-- C10 amended: for every cleaned table with at least one row, the
rendered overview heading is the constant string independent of the years
present; the computed latest year does not influence it. -/
theorem c10_heading_constant (f : Frame) (h : f.rows ≠ []) :
    overviewSubheader f = .ok "Data Overview for 2025" := by
  obtain ⟨hT, rows⟩ := f
  cases rows with
  | nil => exact absurd rfl h
  | cons a t =>
    unfold overviewSubheader latest_year
    simp only [List.map_cons, seriesMax]
    cases seriesMax (t.map (fun r => r.year)) <;> rfl

/-- C10 witness: a concrete nonempty cleaned table at which the constant
heading theorem evaluates. -/
theorem c10_witness : overviewSubheader frame5 = .ok "Data Overview for 2025" :=
  c10_heading_constant frame5 (by decide)
